import Mathlib

/-!
# Verification of the wood-sorting master controller firmware

Shallow embedding of the Arduino sketch "Master Controller for Automated
Wood Sorting System (v4)": a single-threaded polling control loop that
debounces an IR break-beam sensor, measures beam-interruption duration,
drives a stepper motor (IDLE / CONTINUOUS / TRIGGER modes with a run-out
phase), actuates three sorting-gate servos and exchanges single-character
commands / text lines with a host over serial.

Machine integers (`unsigned long`, 32-bit on the AVR toolchain used) are
modelled as `Nat` with explicit wraparound-safe subtraction modulo 2^32.
Digital levels are `Bool` with `true = HIGH`, `false = LOW`.  Side effects
(serial lines, servo writes, the blocking `delay`) are collected in an
explicit output trace; pin levels live in the state record.
-/

namespace WoodSort

/-- 2^32, the modulus of Arduino `unsigned long` arithmetic. -/
def U32 : Nat := 4294967296

/-- Wraparound-safe unsigned subtraction `a - b` on 32-bit counters,
as performed by C `unsigned long` subtraction of `millis()`/`micros()`
timestamps. -/
def sub32 (a b : Nat) : Nat := (U32 + a % U32 - b % U32) % U32

/-- Operating mode of the controller (`enum Mode { IDLE, CONTINUOUS, TRIGGER }`). -/
inductive Mode
  | IDLE
  | CONTINUOUS
  | TRIGGER
deriving DecidableEq, Repr

/-- One observable side effect of a handler call: a newline-terminated
serial line (`Serial.println`), a servo angle command (`servoN.write`),
or a blocking wait (`delay`). -/
inductive Out
  | line (s : String)
  | servoWrite (gate : Nat) (angle : Nat)
  | wait (ms : Nat)
deriving DecidableEq, Repr

/-- The controller's global mutable state: the module-level variables of
the sketch plus the levels last driven onto the stepper pins and the
servo angles. -/
structure ControllerState where
  currentMode : Mode
  lastStepTime : Nat
  stepState : Bool
  motorActiveForTrigger : Bool
  inRunOutPhase : Bool
  runOutStartTime : Nat
  lastStableIrState : Bool
  lastFlickerIrState : Bool
  lastStateChangeTime : Nat
  beamBrokenStartTime : Nat
  beamIsBroken : Bool
  lastStatusTime : Nat
  stepperEnaPin : Bool
  stepperStepPin : Bool
  servo1Angle : Nat
  servo2Angle : Nat
  servo3Angle : Nat
deriving DecidableEq, Repr

/-- `stepInterval = 500` microseconds. -/
def stepInterval : Nat := 500

/-- `runOutDuration = 7000` milliseconds. -/
def runOutDuration : Nat := 7000

/-- `debounceDelay = 50` milliseconds. -/
def debounceDelay : Nat := 50

/-- State after `setup()`: IDLE, stepper disabled (`ENA` HIGH), sensor
idle-high (`INPUT_PULLUP`), servos at the home angle 0. -/
def initialState : ControllerState :=
  { currentMode := Mode.IDLE
    lastStepTime := 0
    stepState := false
    motorActiveForTrigger := false
    inRunOutPhase := false
    runOutStartTime := 0
    lastStableIrState := true
    lastFlickerIrState := true
    lastStateChangeTime := 0
    beamBrokenStartTime := 0
    beamIsBroken := false
    lastStatusTime := 0
    stepperEnaPin := true
    stepperStepPin := false
    servo1Angle := 0
    servo2Angle := 0
    servo3Angle := 0 }

/-- Text of the mode as printed by the periodic status report. -/
def modeName : Mode → String
  | Mode.IDLE => "IDLE"
  | Mode.CONTINUOUS => "CONTINUOUS"
  | Mode.TRIGGER => "TRIGGER"

/-- The periodic status line assembled by `handleStepper`. -/
def statusLine (m : Mode) (active : Bool) : String :=
  "Mode: " ++ modeName m ++ " | Motor Active: " ++ (if active then "YES" else "NO")

/-- `checkIrSensor()`: one poll of the IR pin with debouncing, beam-event
reporting (`"B"` / `"L:<ms>"`) and TRIGGER-mode reactions.  `now` is the
value of `millis()` during the call, `raw` the level read from the pin. -/
def checkIrSensor (s : ControllerState) (now : Nat) (raw : Bool) :
    ControllerState × List Out :=
  let t := if raw ≠ s.lastFlickerIrState then now else s.lastStateChangeTime
  let s1 : ControllerState := { s with lastFlickerIrState := raw, lastStateChangeTime := t }
  if sub32 now t > debounceDelay then
    if raw ≠ s1.lastStableIrState then
      if raw = false then
        let s2 : ControllerState :=
          { s1 with beamBrokenStartTime := now, beamIsBroken := true }
        let s3 : ControllerState :=
          if s2.currentMode = Mode.TRIGGER then
            { s2 with motorActiveForTrigger := true, inRunOutPhase := false }
          else s2
        ({ s3 with lastStableIrState := raw }, [Out.line "B"])
      else
        let r : ControllerState × List Out :=
          if s1.beamIsBroken then
            ({ s1 with beamIsBroken := false },
             [Out.line ("L:" ++ toString (sub32 now s1.beamBrokenStartTime))])
          else (s1, [])
        let s3 : ControllerState :=
          if r.1.currentMode = Mode.TRIGGER ∧ r.1.motorActiveForTrigger then
            { r.1 with inRunOutPhase := true, runOutStartTime := now }
          else r.1
        ({ s3 with lastStableIrState := raw }, r.2)
    else (s1, [])
  else (s1, [])

/-- `handleStepper()`: mode evaluation, enable-line drive, step-line pulse
generation and the ~1 Hz status print.  `nms` is `millis()`, `nus` is
`micros()` during the call. -/
def handleStepper (s : ControllerState) (nms nus : Nat) :
    ControllerState × List Out :=
  let s0 : ControllerState :=
    { s with lastStatusTime := if sub32 nms s.lastStatusTime > 1000 then nms else s.lastStatusTime }
  let pr : ControllerState × Bool :=
    match s0.currentMode with
    | Mode.CONTINUOUS => (s0, true)
    | Mode.TRIGGER =>
      if s0.inRunOutPhase then
        if sub32 nms s0.runOutStartTime < runOutDuration then (s0, true)
        else ({ s0 with inRunOutPhase := false, motorActiveForTrigger := false }, false)
      else (s0, s0.motorActiveForTrigger)
    | Mode.IDLE => (s0, false)
  let s2 : ControllerState := { pr.1 with stepperEnaPin := !pr.2 }
  let s3 : ControllerState :=
    if pr.2 = true ∧ sub32 nus s2.lastStepTime ≥ stepInterval then
      { s2 with lastStepTime := nus, stepState := !s2.stepState, stepperStepPin := !s2.stepState }
    else s2
  (s3, if sub32 nms s.lastStatusTime > 1000 then [Out.line (statusLine s3.currentMode pr.2)] else [])

/-- Write angle `a` to servo `g` (1, 2 or 3), mirroring `servoN.write(a)`. -/
def setServo (s : ControllerState) (g : Nat) (a : Nat) : ControllerState :=
  if g = 1 then { s with servo1Angle := a }
  else if g = 2 then { s with servo2Angle := a }
  else if g = 3 then { s with servo3Angle := a }
  else s

/-- `activateServoGate()`: move the gate to the sorting angle, hold for
1000 ms (blocking `delay`), return it to the home angle 0. -/
def activateServoGate (s : ControllerState) (g : Nat) (angle : Nat) :
    ControllerState × List Out :=
  (setServo (setServo s g angle) g 0,
   [Out.servoWrite g angle, Out.wait 1000, Out.servoWrite g 0])

/-- `checkSerialCommands()`: consume at most one inbound byte (`none` when
`Serial.available() == 0`) and dispatch it. -/
def checkSerialCommands (s : ControllerState) (cmd : Option Char) :
    ControllerState × List Out :=
  match cmd with
  | none => (s, [])
  | some c =>
    if c = '1' then activateServoGate s 1 45
    else if c = '2' then activateServoGate s 2 90
    else if c = '3' then activateServoGate s 3 135
    else if c = 'C' then
      ({ s with currentMode := Mode.CONTINUOUS }, [Out.line "Mode: CONTINUOUS"])
    else if c = 'T' then
      ({ s with currentMode := Mode.TRIGGER,
                motorActiveForTrigger := false, inRunOutPhase := false },
       [Out.line "Mode: TRIGGER"])
    else if c = 'X' then
      ({ s with currentMode := Mode.IDLE,
                motorActiveForTrigger := false, inRunOutPhase := false },
       [Out.line "Mode: IDLE (Stopped)"])
    else (s, [])

/-- One iteration of `loop()`: `handleStepper(); checkIrSensor();
checkSerialCommands();` in exactly that order, with the iteration's
`millis()`/`micros()` readings, raw sensor level, and at most one
inbound byte. -/
def loopStep (s : ControllerState) (nms nus : Nat) (raw : Bool) (cmd : Option Char) :
    ControllerState × List Out :=
  let r1 := handleStepper s nms nus
  let r2 := checkIrSensor r1.1 nms raw
  let r3 := checkSerialCommands r2.1 cmd
  (r3.1, r1.2 ++ r2.2 ++ r3.2)

/-- Feed a list of `(millis, rawLevel)` samples to `checkIrSensor`,
collecting the emitted lines. -/
def runSensor (s : ControllerState) (samples : List (Nat × Bool)) :
    ControllerState × List Out :=
  match samples with
  | [] => (s, [])
  | (t, b) :: rest =>
    let r := checkIrSensor s t b
    let r2 := runSensor r.1 rest
    (r2.1, r.2 ++ r2.2)

/-- Number of samples at which the debounced stable level commits to a
new value along a run of `checkIrSensor`. -/
def commitCount (s : ControllerState) (samples : List (Nat × Bool)) : Nat :=
  match samples with
  | [] => 0
  | (t, b) :: rest =>
    let s' := (checkIrSensor s t b).1
    (if s'.lastStableIrState ≠ s.lastStableIrState then 1 else 0) + commitCount s' rest

/-- The condition under which a call `checkIrSensor s now raw` commits a
new stable level: the raw reading agrees with the last raw sample (no
flip at this call), has been stable for strictly more than
`debounceDelay` since the last recorded raw flip, and differs from the
current stable level. -/
def commitCond (s : ControllerState) (now : Nat) (raw : Bool) : Prop :=
  raw = s.lastFlickerIrState ∧
  sub32 now s.lastStateChangeTime > debounceDelay ∧
  raw ≠ s.lastStableIrState

/-- Is this output the beam-interrupted marker line `"B"`? -/
def isBLine : Out → Bool
  | Out.line str => str == "B"
  | _ => false

/-- Is this output a beam-cleared duration line, i.e. a serial line
starting with `"L:"`? -/
def isLLine : Out → Bool
  | Out.line str => str.data.take 2 == ['L', ':']
  | _ => false

/-- 1 when the beam is currently marked broken, else 0 (used to balance
`"B"` against `"L:"` lines along a run). -/
def brokenVal (s : ControllerState) : Nat :=
  if s.beamIsBroken then 1 else 0

/-- The invariant that `beamIsBroken` implies the debounced stable level
is LOW; it holds in every reachable state and makes every `"L:"` line
follow a matching `"B"` line. -/
def brokenInv (s : ControllerState) : Prop :=
  s.beamIsBroken = true → s.lastStableIrState = false

/-- Example state: the beam has been stably broken since `millis() = 100`
(stable level LOW, `beamIsBroken` set) and the raw reading has been back
at HIGH-agreeing `lastFlickerIrState` long enough to accept a clear. -/
def exBeamBroken : ControllerState :=
  { initialState with lastStableIrState := false, beamIsBroken := true,
                      beamBrokenStartTime := 100 }

/-- Example state: sensor has read LOW since `millis() = 0` with the
stable level still HIGH, so an Interrupted commit is pending. -/
def exAwaitBreak : ControllerState :=
  { initialState with lastFlickerIrState := false }

/-- Example state: TRIGGER mode armed, with a pending LOW reading as in
`exAwaitBreak`. -/
def exTriggerArmed : ControllerState :=
  { initialState with currentMode := Mode.TRIGGER, lastFlickerIrState := false }

/-- Example state: the controller was switched to CONTINUOUS in the middle
of a run-out, leaving the trigger sub-state (`motorActiveForTrigger`,
`inRunOutPhase`) stale. -/
def exRunOutContinuous : ControllerState :=
  { initialState with currentMode := Mode.CONTINUOUS, motorActiveForTrigger := true,
                      inRunOutPhase := true, runOutStartTime := 0 }

/-- Example state: TRIGGER mode in an active run-out that started at
`millis() = 0`. -/
def exRunOutTrigger : ControllerState :=
  { initialState with currentMode := Mode.TRIGGER, motorActiveForTrigger := true,
                      inRunOutPhase := true, runOutStartTime := 0 }

/-! ## Basic lemmas about the debounced edge detector -/

theorem sub32_self (a : Nat) : sub32 a a = 0 := by
  simp [sub32]

theorem checkIr_stable_change_iff (s : ControllerState) (now : Nat) (raw : Bool) :
    (checkIrSensor s now raw).1.lastStableIrState ≠ s.lastStableIrState ↔
      commitCond s now raw := by
  obtain ⟨mo, lst, ss, maft, irp, rost, lsis, lfis, lsct, bbst, bib, lstt, ena, stp, a1, a2, a3⟩ := s
  by_cases hd : 50 < sub32 now lsct <;>
    cases raw <;> cases lfis <;> cases lsis <;>
      simp [checkIrSensor, commitCond, hd, sub32_self, debounceDelay]

theorem checkIr_stable_of_eq (s : ControllerState) (now : Nat) (raw : Bool)
    (h : raw = s.lastStableIrState) :
    (checkIrSensor s now raw).1.lastStableIrState = s.lastStableIrState := by
  by_cases hc : (checkIrSensor s now raw).1.lastStableIrState = s.lastStableIrState
  · exact hc
  · exact absurd ((checkIr_stable_change_iff s now raw).mp hc).2.2 (by simp [h])

theorem checkIr_stable_cases (s : ControllerState) (now : Nat) (raw : Bool) :
    (checkIrSensor s now raw).1.lastStableIrState = raw ∨
      (checkIrSensor s now raw).1.lastStableIrState = s.lastStableIrState := by
  obtain ⟨mo, lst, ss, maft, irp, rost, lsis, lfis, lsct, bbst, bib, lstt, ena, stp, a1, a2, a3⟩ := s
  by_cases hd : 50 < sub32 now lsct <;>
    cases raw <;> cases lfis <;> cases lsis <;>
      simp [checkIrSensor, hd, sub32_self, debounceDelay]

theorem commitCount_zero (samples : List (Nat × Bool)) :
    ∀ s : ControllerState, (∀ p ∈ samples, p.2 = s.lastStableIrState) →
      commitCount s samples = 0 := by
  induction samples with
  | nil => intro s _; rfl
  | cons hd tl ih =>
    intro s h
    obtain ⟨t, b⟩ := hd
    have hb : b = s.lastStableIrState := h (t, b) (List.mem_cons_self _ _)
    have hst := checkIr_stable_of_eq s t b hb
    simp only [commitCount, hst, ne_eq, not_true_eq_false, if_neg, if_false,
      not_false_eq_true, zero_add]
    exact ih _ (fun p hp => by rw [hst]; exact h p (List.mem_cons_of_mem _ hp))

theorem commitCount_le_one (samples : List (Nat × Bool)) :
    ∀ (s : ControllerState) (b : Bool), (∀ p ∈ samples, p.2 = b) →
      commitCount s samples ≤ 1 := by
  induction samples with
  | nil => intro s b _; simp [commitCount]
  | cons hd tl ih =>
    intro s b h
    obtain ⟨t, b'⟩ := hd
    have hb : b' = b := h (t, b') (List.mem_cons_self _ _)
    have htl : ∀ p ∈ tl, p.2 = b := fun p hp => h p (List.mem_cons_of_mem _ hp)
    by_cases hc : (checkIrSensor s t b').1.lastStableIrState = s.lastStableIrState
    · simp only [commitCount, hc, ne_eq, not_true_eq_false, if_false, zero_add]
      exact ih _ b htl
    · have hraw : (checkIrSensor s t b').1.lastStableIrState = b' := by
        rcases checkIr_stable_cases s t b' with h1 | h1
        · exact h1
        · exact absurd h1 hc
      have hzero : commitCount (checkIrSensor s t b').1 tl = 0 := by
        apply commitCount_zero
        intro p hp
        rw [hraw, hb]
        exact htl p hp
      simp [commitCount, hc, hzero]

theorem checkIr_flicker (s : ControllerState) (t t' : Nat) (b : Bool)
    (hb : b ≠ s.lastFlickerIrState) (_ht : sub32 t' t < debounceDelay) :
    (checkIrSensor s t b).2 = [] ∧
    (checkIrSensor s t b).1.lastStableIrState = s.lastStableIrState ∧
    (checkIrSensor (checkIrSensor s t b).1 t' s.lastFlickerIrState).2 = [] ∧
    (checkIrSensor (checkIrSensor s t b).1 t' s.lastFlickerIrState).1.lastStableIrState
      = s.lastStableIrState := by
  obtain ⟨mo, lst, ss, maft, irp, rost, lsis, lfis, lsct, bbst, bib, lstt, ena, stp, a1, a2, a3⟩ := s
  cases b <;> cases lfis <;>
    simp_all [checkIrSensor, sub32_self, debounceDelay]

theorem checkIr_broken_spec (s : ControllerState) (now : Nat)
    (hc : commitCond s now false) :
    (checkIrSensor s now false).1.beamBrokenStartTime = now ∧
    (checkIrSensor s now false).1.beamIsBroken = true ∧
    (checkIrSensor s now false).2 = [Out.line "B"] ∧
    (checkIrSensor s now false).1.lastStableIrState = false ∧
    (s.currentMode = Mode.TRIGGER →
      (checkIrSensor s now false).1.motorActiveForTrigger = true ∧
      (checkIrSensor s now false).1.inRunOutPhase = false) ∧
    (s.currentMode ≠ Mode.TRIGGER →
      (checkIrSensor s now false).1.motorActiveForTrigger = s.motorActiveForTrigger ∧
      (checkIrSensor s now false).1.inRunOutPhase = s.inRunOutPhase) := by
  obtain ⟨h1, h2, h3⟩ := hc
  obtain ⟨mo, lst, ss, maft, irp, rost, lsis, lfis, lsct, bbst, bib, lstt, ena, stp, a1, a2, a3⟩ := s
  cases mo <;> cases lfis <;> cases lsis <;>
    simp_all [checkIrSensor, debounceDelay]

theorem checkIr_cleared_spec (s : ControllerState) (now : Nat)
    (hc : commitCond s now true) :
    (s.beamIsBroken = true →
      (checkIrSensor s now true).2
        = [Out.line ("L:" ++ toString (sub32 now s.beamBrokenStartTime))] ∧
      (checkIrSensor s now true).1.beamIsBroken = false) ∧
    (s.beamIsBroken = false → (checkIrSensor s now true).2 = []) ∧
    (checkIrSensor s now true).1.lastStableIrState = true := by
  obtain ⟨h1, h2, h3⟩ := hc
  obtain ⟨mo, lst, ss, maft, irp, rost, lsis, lfis, lsct, bbst, bib, lstt, ena, stp, a1, a2, a3⟩ := s
  cases mo <;> cases lfis <;> cases lsis <;> cases bib <;> cases maft <;>
    simp_all [checkIrSensor, debounceDelay]

/-! ## Lemmas about the stepper handler -/

theorem handleStepper_frame (s : ControllerState) (nms nus : Nat) :
    (handleStepper s nms nus).1.currentMode = s.currentMode ∧
    (handleStepper s nms nus).1.lastStableIrState = s.lastStableIrState ∧
    (handleStepper s nms nus).1.lastFlickerIrState = s.lastFlickerIrState ∧
    (handleStepper s nms nus).1.lastStateChangeTime = s.lastStateChangeTime ∧
    (handleStepper s nms nus).1.beamBrokenStartTime = s.beamBrokenStartTime ∧
    (handleStepper s nms nus).1.beamIsBroken = s.beamIsBroken ∧
    (handleStepper s nms nus).1.servo1Angle = s.servo1Angle ∧
    (handleStepper s nms nus).1.servo2Angle = s.servo2Angle ∧
    (handleStepper s nms nus).1.servo3Angle = s.servo3Angle := by
  obtain ⟨mo, lst, ss, maft, irp, rost, lsis, lfis, lsct, bbst, bib, lstt, ena, stp, a1, a2, a3⟩ := s
  cases mo <;> cases irp <;> cases maft <;>
    by_cases h1 : 1000 < sub32 nms lstt <;>
    by_cases h2 : sub32 nms rost < 7000 <;>
    by_cases h3 : 500 ≤ sub32 nus lst <;>
      simp [handleStepper, h1, h2, h3, runOutDuration, stepInterval]

theorem handleStepper_trigger_runout (s : ControllerState) (nms nus : Nat) :
    (s.currentMode = Mode.TRIGGER → s.inRunOutPhase = true →
        runOutDuration ≤ sub32 nms s.runOutStartTime →
      (handleStepper s nms nus).1.inRunOutPhase = false ∧
      (handleStepper s nms nus).1.motorActiveForTrigger = false) ∧
    (s.currentMode ≠ Mode.TRIGGER →
      (handleStepper s nms nus).1.inRunOutPhase = s.inRunOutPhase ∧
      (handleStepper s nms nus).1.motorActiveForTrigger = s.motorActiveForTrigger) := by
  obtain ⟨mo, lst, ss, maft, irp, rost, lsis, lfis, lsct, bbst, bib, lstt, ena, stp, a1, a2, a3⟩ := s
  cases mo <;> cases irp <;> cases maft <;>
    by_cases h1 : 1000 < sub32 nms lstt <;>
    by_cases h2 : sub32 nms rost < 7000 <;>
    by_cases h3 : 500 ≤ sub32 nus lst <;>
      simp [handleStepper, h1, h2, h3, runOutDuration, stepInterval]

theorem handleStepper_trigger_armed (s : ControllerState) (nms nus : Nat)
    (hm : s.currentMode = Mode.TRIGGER) (hr : s.inRunOutPhase = false) :
    (handleStepper s nms nus).1.stepperEnaPin = !s.motorActiveForTrigger ∧
    (handleStepper s nms nus).1.motorActiveForTrigger = s.motorActiveForTrigger ∧
    (handleStepper s nms nus).1.inRunOutPhase = false := by
  obtain ⟨mo, lst, ss, maft, irp, rost, lsis, lfis, lsct, bbst, bib, lstt, ena, stp, a1, a2, a3⟩ := s
  subst hm
  simp only at hr
  subst hr
  cases maft <;>
    by_cases h1 : 1000 < sub32 nms lstt <;>
    by_cases h3 : 500 ≤ sub32 nus lst <;>
      simp [handleStepper, h1, h3, runOutDuration, stepInterval]

theorem handleStepper_step_spec (s : ControllerState) (nms nus : Nat) :
    ((handleStepper s nms nus).1.stepperEnaPin = false ∧
        stepInterval ≤ sub32 nus s.lastStepTime →
      (handleStepper s nms nus).1.stepState = !s.stepState ∧
      (handleStepper s nms nus).1.stepperStepPin = !s.stepState ∧
      (handleStepper s nms nus).1.lastStepTime = nus) ∧
    ((handleStepper s nms nus).1.stepperEnaPin = true ∨
        sub32 nus s.lastStepTime < stepInterval →
      (handleStepper s nms nus).1.stepState = s.stepState ∧
      (handleStepper s nms nus).1.stepperStepPin = s.stepperStepPin ∧
      (handleStepper s nms nus).1.lastStepTime = s.lastStepTime) := by
  obtain ⟨mo, lst, ss, maft, irp, rost, lsis, lfis, lsct, bbst, bib, lstt, ena, stp, a1, a2, a3⟩ := s
  cases mo <;> cases irp <;> cases maft <;>
    by_cases h1 : 1000 < sub32 nms lstt <;>
    by_cases h2 : sub32 nms rost < 7000 <;>
    by_cases h3 : 500 ≤ sub32 nus lst <;>
      simp [handleStepper, h1, h2, h3, runOutDuration, stepInterval]

theorem checkIr_frame (s : ControllerState) (t : Nat) (raw : Bool) :
    (checkIrSensor s t raw).1.currentMode = s.currentMode ∧
    (checkIrSensor s t raw).1.stepperEnaPin = s.stepperEnaPin ∧
    (checkIrSensor s t raw).1.stepperStepPin = s.stepperStepPin ∧
    (checkIrSensor s t raw).1.lastStepTime = s.lastStepTime ∧
    (checkIrSensor s t raw).1.stepState = s.stepState ∧
    (checkIrSensor s t raw).1.lastStatusTime = s.lastStatusTime ∧
    (checkIrSensor s t raw).1.servo1Angle = s.servo1Angle ∧
    (checkIrSensor s t raw).1.servo2Angle = s.servo2Angle ∧
    (checkIrSensor s t raw).1.servo3Angle = s.servo3Angle := by
  obtain ⟨mo, lst, ss, maft, irp, rost, lsis, lfis, lsct, bbst, bib, lstt, ena, stp, a1, a2, a3⟩ := s
  simp only [checkIrSensor]
  split_ifs <;> simp

/-! ## Lemmas about the beam-event lines -/

theorem isLLine_append (x : String) : isLLine (Out.line ("L:" ++ x)) = true := by
  have hdata : ("L:" ++ x).data = 'L' :: ':' :: x.data := by
    rw [String.data_append]; rfl
  simp [isLLine, hdata]

theorem isBLine_append (x : String) : isBLine (Out.line ("L:" ++ x)) = false := by
  simp only [isBLine, beq_eq_false_iff_ne, ne_eq]
  intro h
  have hd := congrArg String.data h
  rw [String.data_append] at hd
  simp at hd

theorem L_ne_B (x : String) : "L:" ++ x ≠ "B" := by
  intro h
  have hd := congrArg String.data h
  rw [String.data_append] at hd
  simp at hd

set_option maxHeartbeats 1000000 in
theorem checkIr_count_step (s : ControllerState) (t : Nat) (raw : Bool)
    (h : brokenInv s) :
    ((checkIrSensor s t raw).2.countP isBLine + brokenVal s
      = (checkIrSensor s t raw).2.countP isLLine
          + brokenVal (checkIrSensor s t raw).1) ∧
    brokenInv (checkIrSensor s t raw).1 := by
  obtain ⟨mo, lst, ss, maft, irp, rost, lsis, lfis, lsct, bbst, bib, lstt, ena, stp, a1, a2, a3⟩ := s
  simp only [brokenInv] at h
  cases raw <;> cases lfis <;> cases bib <;> cases lsis <;>
    (simp only [checkIrSensor, brokenVal, brokenInv]
     split_ifs <;>
       simp_all [isBLine, isLLine, L_ne_B, isLLine_append, isBLine_append,
         debounceDelay, sub32_self, List.countP_cons, List.countP_nil])

theorem runSensor_count (samples : List (Nat × Bool)) :
    ∀ s : ControllerState, brokenInv s →
      ((runSensor s samples).2.countP isBLine + brokenVal s
        = (runSensor s samples).2.countP isLLine
            + brokenVal (runSensor s samples).1) ∧
      brokenInv (runSensor s samples).1 := by
  induction samples with
  | nil => intro s h; exact ⟨rfl, h⟩
  | cons hd tl ih =>
    intro s h
    obtain ⟨t, b⟩ := hd
    have hstep := checkIr_count_step s t b h
    have hrest := ih (checkIrSensor s t b).1 hstep.2
    refine ⟨?_, ?_⟩
    · simp only [runSensor, List.countP_append]
      have e1 := hstep.1
      have e2 := hrest.1
      omega
    · simp only [runSensor]
      exact hrest.2

theorem checkIr_noL (s : ControllerState) (t : Nat) (raw : Bool) (o : Out)
    (h : s.beamIsBroken = false) (ho : o ∈ (checkIrSensor s t raw).2) :
    isLLine o = false := by
  obtain ⟨mo, lst, ss, maft, irp, rost, lsis, lfis, lsct, bbst, bib, lstt, ena, stp, a1, a2, a3⟩ := s
  simp only at h
  subst h
  cases raw <;> cases lfis <;> cases lsis <;>
    (simp only [checkIrSensor] at ho
     split_ifs at ho <;> simp_all [debounceDelay, sub32_self, isLLine])

theorem checkIr_B_on_break (s : ControllerState) (t : Nat) (raw : Bool)
    (h : s.beamIsBroken = false)
    (h2 : (checkIrSensor s t raw).1.beamIsBroken = true) :
    Out.line "B" ∈ (checkIrSensor s t raw).2 := by
  obtain ⟨mo, lst, ss, maft, irp, rost, lsis, lfis, lsct, bbst, bib, lstt, ena, stp, a1, a2, a3⟩ := s
  simp only at h
  subst h
  cases raw <;> cases lfis <;> cases lsis <;>
    (simp only [checkIrSensor] at h2 ⊢
     split_ifs at h2 ⊢ <;> simp_all [debounceDelay, sub32_self])

/-! ## Claim theorems -/

/-- C1: the debounced edge detector commits a new stable level exactly
when the raw reading agrees with the previous raw sample, differs from
the current stable level, and has been stable for strictly more than
`debounceDelay` (50 ms) since the last raw flip; a single-sample flicker
away from the raw level and back never changes the stable level and never
emits a transition line; and any maintained period of continuous raw
agreement commits at most one stable transition. -/
theorem C1_debounce_commit :
    (∀ (s : ControllerState) (now : Nat) (raw : Bool),
      (checkIrSensor s now raw).1.lastStableIrState ≠ s.lastStableIrState ↔
        commitCond s now raw) ∧
    (∀ (s : ControllerState) (t t' : Nat) (b : Bool),
      b ≠ s.lastFlickerIrState → sub32 t' t < debounceDelay →
      (checkIrSensor s t b).2 = [] ∧
      (checkIrSensor s t b).1.lastStableIrState = s.lastStableIrState ∧
      (checkIrSensor (checkIrSensor s t b).1 t' s.lastFlickerIrState).2 = [] ∧
      (checkIrSensor (checkIrSensor s t b).1 t' s.lastFlickerIrState).1.lastStableIrState
        = s.lastStableIrState) ∧
    (∀ (s : ControllerState) (b : Bool) (samples : List (Nat × Bool)),
      (∀ p ∈ samples, p.2 = b) → commitCount s samples ≤ 1) :=
  ⟨checkIr_stable_change_iff, checkIr_flicker,
   fun s b samples h => commitCount_le_one samples s b h⟩

/-- Witness for C1 at concrete inputs: a first LOW sample at `t = 100`
(a raw flip) changes nothing, the immediate return to HIGH at `t = 110`
changes nothing, and a constant-LOW sample train commits at most once. -/
theorem C1_debounce_commit_witness :
    ((checkIrSensor initialState 100 false).1.lastStableIrState
        ≠ initialState.lastStableIrState ↔ commitCond initialState 100 false) ∧
    ((checkIrSensor initialState 100 false).2 = [] ∧
     (checkIrSensor initialState 100 false).1.lastStableIrState
        = initialState.lastStableIrState ∧
     (checkIrSensor (checkIrSensor initialState 100 false).1 110
        initialState.lastFlickerIrState).2 = [] ∧
     (checkIrSensor (checkIrSensor initialState 100 false).1 110
        initialState.lastFlickerIrState).1.lastStableIrState
        = initialState.lastStableIrState) ∧
    commitCount initialState [(100, false), (200, false)] ≤ 1 :=
  ⟨C1_debounce_commit.1 initialState 100 false,
   C1_debounce_commit.2.1 initialState 100 110 false (by decide) (by decide),
   C1_debounce_commit.2.2 initialState false [(100, false), (200, false)] (by decide)⟩

/-- C2: an accepted stable Cleared transition while the beam is marked
broken emits exactly one line `"L:<duration>"`, with `<duration>` the
decimal value of `now − beamBrokenStartTime` sampled at that transition,
and `beamBrokenStartTime` is exactly the `now` recorded at an accepted
Interrupted transition (which also marks the beam broken and emits
`"B"`). -/
theorem C2_cleared_duration_line (s : ControllerState) (now : Nat) :
    (commitCond s now true → s.beamIsBroken = true →
      (checkIrSensor s now true).2
        = [Out.line ("L:" ++ toString (sub32 now s.beamBrokenStartTime))] ∧
      (checkIrSensor s now true).1.beamIsBroken = false) ∧
    (commitCond s now false →
      (checkIrSensor s now false).1.beamBrokenStartTime = now ∧
      (checkIrSensor s now false).1.beamIsBroken = true ∧
      (checkIrSensor s now false).2 = [Out.line "B"]) :=
  ⟨fun hc hb => (checkIr_cleared_spec s now hc).1 hb,
   fun hc =>
    ⟨(checkIr_broken_spec s now hc).1, (checkIr_broken_spec s now hc).2.1,
     (checkIr_broken_spec s now hc).2.2.1⟩⟩

/-- Witness for C2: from `exBeamBroken` (beam broken since 100 ms) a clear
accepted at 300 ms emits exactly `"L:200"`; from `exAwaitBreak` a break
accepted at 100 ms records the timestamp and emits `"B"`. -/
theorem C2_cleared_duration_line_witness :
    ((checkIrSensor exBeamBroken 300 true).2
        = [Out.line ("L:" ++ toString (sub32 300 exBeamBroken.beamBrokenStartTime))] ∧
      (checkIrSensor exBeamBroken 300 true).1.beamIsBroken = false) ∧
    ((checkIrSensor exAwaitBreak 100 false).1.beamBrokenStartTime = 100 ∧
      (checkIrSensor exAwaitBreak 100 false).1.beamIsBroken = true ∧
      (checkIrSensor exAwaitBreak 100 false).2 = [Out.line "B"]) :=
  ⟨(C2_cleared_duration_line exBeamBroken 300).1
      ⟨by decide, by decide, by decide⟩ (by decide),
   (C2_cleared_duration_line exAwaitBreak 100).2 ⟨by decide, by decide, by decide⟩⟩

/-- C3: at every `handleStepper` evaluation the motor-should-run signal —
observable as the stepper enable line driven LOW (`stepperEnaPin = false`,
active-low) — is true exactly when the mode is CONTINUOUS, or the mode is
TRIGGER and, after the run-out bookkeeping of that same evaluation,
`motorActiveForTrigger` or `inRunOutPhase` holds; in IDLE it is false. -/
theorem C3_should_run_signal (s : ControllerState) (nms nus : Nat) :
    (handleStepper s nms nus).1.stepperEnaPin = false ↔
      (s.currentMode = Mode.CONTINUOUS ∨
        (s.currentMode = Mode.TRIGGER ∧
          ((handleStepper s nms nus).1.motorActiveForTrigger = true ∨
           (handleStepper s nms nus).1.inRunOutPhase = true))) := by
  obtain ⟨mo, lst, ss, maft, irp, rost, lsis, lfis, lsct, bbst, bib, lstt, ena, stp, a1, a2, a3⟩ := s
  cases mo <;> cases irp <;> cases maft <;> cases ss <;>
    by_cases h1 : 1000 < sub32 nms lstt <;>
    by_cases h2 : sub32 nms rost < 7000 <;>
    by_cases h3 : 500 ≤ sub32 nus lst <;>
      simp [handleStepper, h1, h2, h3, runOutDuration, stepInterval]

/-- C4 counterexample: the claim says an expired run-out is ended
"regardless of the current mode", but in CONTINUOUS mode (reachable by
sending `'C'` mid-run-out) `handleStepper` never inspects the run-out
timer: at `millis() = 8000`, 8000 ms past `runOutStartTime = 0` and well
beyond `runOutDuration = 7000`, both `inRunOutPhase` and
`motorActiveForTrigger` survive the evaluation. -/
theorem C4_runout_expiry_counterexample :
    exRunOutContinuous.inRunOutPhase = true ∧
    runOutDuration ≤ sub32 8000 exRunOutContinuous.runOutStartTime ∧
    (handleStepper exRunOutContinuous 8000 0).1.inRunOutPhase = true ∧
    (handleStepper exRunOutContinuous 8000 0).1.motorActiveForTrigger = true := by
  decide

/-- C4 amended: in TRIGGER mode, any `handleStepper` evaluation at which
`now − runOutStartTime ≥ RUN_OUT_DURATION` (7000 ms) ends an active
run-out and clears `motorActiveForTrigger` at the same point; in the
other modes the run-out flags are left untouched by `handleStepper`. -/
theorem C4_runout_expiry (s : ControllerState) (nms nus : Nat) :
    (s.currentMode = Mode.TRIGGER → s.inRunOutPhase = true →
        runOutDuration ≤ sub32 nms s.runOutStartTime →
      (handleStepper s nms nus).1.inRunOutPhase = false ∧
      (handleStepper s nms nus).1.motorActiveForTrigger = false) ∧
    (s.currentMode ≠ Mode.TRIGGER →
      (handleStepper s nms nus).1.inRunOutPhase = s.inRunOutPhase ∧
      (handleStepper s nms nus).1.motorActiveForTrigger = s.motorActiveForTrigger) :=
  handleStepper_trigger_runout s nms nus

/-- Witness for C4: from `exRunOutTrigger` (TRIGGER, run-out since 0) at
`millis() = 8000` the run-out ends and the motor flag clears; from
`exRunOutContinuous` (CONTINUOUS) the flags are untouched. -/
theorem C4_runout_expiry_witness :
    ((handleStepper exRunOutTrigger 8000 0).1.inRunOutPhase = false ∧
     (handleStepper exRunOutTrigger 8000 0).1.motorActiveForTrigger = false) ∧
    ((handleStepper exRunOutContinuous 8000 0).1.inRunOutPhase
        = exRunOutContinuous.inRunOutPhase ∧
     (handleStepper exRunOutContinuous 8000 0).1.motorActiveForTrigger
        = exRunOutContinuous.motorActiveForTrigger) :=
  ⟨(C4_runout_expiry exRunOutTrigger 8000 0).1 (by decide) (by decide) (by decide),
   (C4_runout_expiry exRunOutContinuous 8000 0).2 (by decide)⟩

/-- C7: whenever the motor-should-run signal is asserted (enable line
driven LOW) and `now − lastStepTime ≥ STEP_INTERVAL` (500 µs) under
wraparound-safe unsigned subtraction, the step phase flips, the step line
is driven to the new phase, and `lastStepTime` is set to `now`; when the
signal is off or the interval has not elapsed, phase, step line and
`lastStepTime` are untouched — hence after a flip at `nus`, a further
evaluation less than `STEP_INTERVAL` later cannot flip again. -/
theorem C7_step_cadence (s : ControllerState) (nms nus nms2 nus2 : Nat) :
    ((handleStepper s nms nus).1.stepperEnaPin = false ∧
        stepInterval ≤ sub32 nus s.lastStepTime →
      (handleStepper s nms nus).1.stepState = !s.stepState ∧
      (handleStepper s nms nus).1.stepperStepPin = !s.stepState ∧
      (handleStepper s nms nus).1.lastStepTime = nus) ∧
    ((handleStepper s nms nus).1.stepperEnaPin = true ∨
        sub32 nus s.lastStepTime < stepInterval →
      (handleStepper s nms nus).1.stepState = s.stepState ∧
      (handleStepper s nms nus).1.stepperStepPin = s.stepperStepPin ∧
      (handleStepper s nms nus).1.lastStepTime = s.lastStepTime) ∧
    ((handleStepper s nms nus).1.lastStepTime = nus →
        sub32 nus2 nus < stepInterval →
      (handleStepper (handleStepper s nms nus).1 nms2 nus2).1.stepState
        = (handleStepper s nms nus).1.stepState) := by
  refine ⟨(handleStepper_step_spec s nms nus).1, (handleStepper_step_spec s nms nus).2, ?_⟩
  intro hlast hint
  exact ((handleStepper_step_spec (handleStepper s nms nus).1 nms2 nus2).2
    (Or.inr (by rw [hlast]; exact hint))).1

/-- Witness for C7 at concrete inputs: in `exRunOutContinuous`
(CONTINUOUS, so the enable line is driven LOW) with `micros() = 600`
and `lastStepTime = 0` the phase flips and `lastStepTime` becomes 600;
in `initialState` (IDLE, enable HIGH) nothing moves; and 100 µs after
the flip the phase does not flip again. -/
theorem C7_step_cadence_witness :
    ((handleStepper exRunOutContinuous 100 600).1.stepState
        = !exRunOutContinuous.stepState ∧
     (handleStepper exRunOutContinuous 100 600).1.stepperStepPin
        = !exRunOutContinuous.stepState ∧
     (handleStepper exRunOutContinuous 100 600).1.lastStepTime = 600) ∧
    ((handleStepper initialState 100 600).1.stepState = initialState.stepState ∧
     (handleStepper initialState 100 600).1.stepperStepPin = initialState.stepperStepPin ∧
     (handleStepper initialState 100 600).1.lastStepTime = initialState.lastStepTime) ∧
    (handleStepper (handleStepper exRunOutContinuous 100 600).1 101 700).1.stepState
        = (handleStepper exRunOutContinuous 100 600).1.stepState :=
  ⟨(C7_step_cadence exRunOutContinuous 100 600 101 700).1 (by decide),
   (C7_step_cadence initialState 100 600 101 700).2.1 (by decide),
   (C7_step_cadence exRunOutContinuous 100 600 101 700).2.2 (by decide) (by decide)⟩

/-- C5 counterexample: the claim says dispatching `'C'` from another mode
clears the stale trigger sub-state, but the `'C'` case of
`checkSerialCommands` only assigns the mode: from `exRunOutTrigger`
(TRIGGER, mid-run-out) the command leaves both `motorActiveForTrigger`
and `inRunOutPhase` set. -/
theorem C5_mode_commands_counterexample :
    exRunOutTrigger.currentMode ≠ Mode.CONTINUOUS ∧
    (checkSerialCommands exRunOutTrigger (some 'C')).1.currentMode = Mode.CONTINUOUS ∧
    (checkSerialCommands exRunOutTrigger (some 'C')).1.motorActiveForTrigger = true ∧
    (checkSerialCommands exRunOutTrigger (some 'C')).1.inRunOutPhase = true := by
  decide

/-- C5 amended: dispatching `'X'` sets IDLE and clears
`motorActiveForTrigger` and `inRunOutPhase`; dispatching `'T'` sets
TRIGGER and clears both; dispatching `'C'` sets CONTINUOUS but leaves the
trigger sub-state untouched.  Each emits exactly its one mode-confirmation
line, so switching modes mid-run-out abandons the run-out silently (no
run-out event is emitted). -/
theorem C5_mode_commands (s : ControllerState) :
    checkSerialCommands s (some 'X') =
      ({ s with currentMode := Mode.IDLE, motorActiveForTrigger := false,
                inRunOutPhase := false },
       [Out.line "Mode: IDLE (Stopped)"]) ∧
    checkSerialCommands s (some 'T') =
      ({ s with currentMode := Mode.TRIGGER, motorActiveForTrigger := false,
                inRunOutPhase := false },
       [Out.line "Mode: TRIGGER"]) ∧
    checkSerialCommands s (some 'C') =
      ({ s with currentMode := Mode.CONTINUOUS }, [Out.line "Mode: CONTINUOUS"]) :=
  ⟨rfl, rfl, rfl⟩

/-- C8: dispatching `'1'`, `'2'` or `'3'` — in every state, hence in every
mode — drives gate 1/2/3 to 45°/90°/135°, holds for the 1000 ms blocking
delay, returns that gate to the home angle 0°, and leaves every other
field of the state (other gates, mode, trigger sub-state, sensor and
pulse state) unchanged. -/
theorem C8_gate_commands (s : ControllerState) :
    checkSerialCommands s (some '1') =
      ({ s with servo1Angle := 0 },
       [Out.servoWrite 1 45, Out.wait 1000, Out.servoWrite 1 0]) ∧
    checkSerialCommands s (some '2') =
      ({ s with servo2Angle := 0 },
       [Out.servoWrite 2 90, Out.wait 1000, Out.servoWrite 2 0]) ∧
    checkSerialCommands s (some '3') =
      ({ s with servo3Angle := 0 },
       [Out.servoWrite 3 135, Out.wait 1000, Out.servoWrite 3 0]) :=
  ⟨rfl, rfl, rfl⟩

/-- C9: any inbound byte other than `'1'`, `'2'`, `'3'`, `'C'`, `'T'`,
`'X'` is silently ignored: `checkSerialCommands` emits nothing and
returns the state unchanged in every field. -/
theorem C9_unknown_byte_ignored (s : ControllerState) (c : Char)
    (h1 : c ≠ '1') (h2 : c ≠ '2') (h3 : c ≠ '3')
    (h4 : c ≠ 'C') (h5 : c ≠ 'T') (h6 : c ≠ 'X') :
    checkSerialCommands s (some c) = (s, []) := by
  simp [checkSerialCommands, h1, h2, h3, h4, h5, h6]

/-- Witness for C9: the byte `'Z'` leaves `initialState` unchanged and
produces no output. -/
theorem C9_unknown_byte_ignored_witness :
    checkSerialCommands initialState (some 'Z') = (initialState, []) :=
  C9_unknown_byte_ignored initialState 'Z' (by decide) (by decide) (by decide)
    (by decide) (by decide) (by decide)

/-- C6 counterexample: the claim says each iteration polls the sensor
before evaluating the mode state machine, so that an accepted edge
influences the same iteration's motor-should-run signal; but `loop()`
calls `handleStepper()` first.  From `exTriggerArmed` (TRIGGER, motor
idle, LOW pending since 0 ms) the iteration at `millis() = 100` accepts
the Interrupted edge (emits `"B"`, sets `motorActiveForTrigger`), yet the
enable line ends the iteration still HIGH (disabled), which contradicts
the claimed same-iteration influence. -/
theorem C6_loop_order_counterexample :
    exTriggerArmed.currentMode = Mode.TRIGGER ∧
    Out.line "B" ∈ (loopStep exTriggerArmed 100 0 false none).2 ∧
    (loopStep exTriggerArmed 100 0 false none).1.motorActiveForTrigger = true ∧
    (loopStep exTriggerArmed 100 0 false none).1.stepperEnaPin = true := by
  decide

/-- C6 amended: each `loop()` iteration evaluates the mode state machine
and drives the pulse generator first, then polls and debounces the
sensor, then dispatches at most one host command; consequently a sensor
edge accepted in an iteration influences the motor-should-run evaluation
of the NEXT iteration: an Interrupted edge accepted in TRIGGER mode
leaves the enable line HIGH (disabled) for its own iteration and drives
it LOW (enabled) on the following iteration. -/
theorem C6_loop_order (s : ControllerState) (nms nus nms2 nus2 : Nat) (raw2 : Bool)
    (hm : s.currentMode = Mode.TRIGGER)
    (hma : s.motorActiveForTrigger = false)
    (hro : s.inRunOutPhase = false)
    (hc : commitCond s nms false) :
    Out.line "B" ∈ (loopStep s nms nus false none).2 ∧
    (loopStep s nms nus false none).1.stepperEnaPin = true ∧
    (loopStep (loopStep s nms nus false none).1 nms2 nus2 raw2 none).1.stepperEnaPin
      = false := by
  have hf := handleStepper_frame s nms nus
  have harm := handleStepper_trigger_armed s nms nus hm hro
  have hena1 : (handleStepper s nms nus).1.stepperEnaPin = true := by
    rw [harm.1, hma]; rfl
  have hm1 : (handleStepper s nms nus).1.currentMode = Mode.TRIGGER := by
    rw [hf.1, hm]
  have hc1 : commitCond (handleStepper s nms nus).1 nms false := by
    obtain ⟨a, b, c⟩ := hc
    refine ⟨?_, ?_, ?_⟩
    · rw [hf.2.2.1]; exact a
    · rw [hf.2.2.2.1]; exact b
    · rw [hf.2.1]; exact c
  have hb := checkIr_broken_spec (handleStepper s nms nus).1 nms hc1
  have hcf := checkIr_frame (handleStepper s nms nus).1 nms false
  have hena2 : (checkIrSensor (handleStepper s nms nus).1 nms false).1.stepperEnaPin
      = true := by rw [hcf.2.1]; exact hena1
  have hm2 : (checkIrSensor (handleStepper s nms nus).1 nms false).1.currentMode
      = Mode.TRIGGER := by rw [hcf.1]; exact hm1
  have hma2 : (checkIrSensor (handleStepper s nms nus).1 nms
      false).1.motorActiveForTrigger = true := (hb.2.2.2.2.1 hm1).1
  have hro2 : (checkIrSensor (handleStepper s nms nus).1 nms false).1.inRunOutPhase
      = false := (hb.2.2.2.2.1 hm1).2
  refine ⟨?_, ?_, ?_⟩
  · show Out.line "B" ∈ (handleStepper s nms nus).2 ++
      (checkIrSensor (handleStepper s nms nus).1 nms false).2 ++ []
    rw [hb.2.2.1]
    simp
  · exact hena2
  · have harm2 := handleStepper_trigger_armed
      (checkIrSensor (handleStepper s nms nus).1 nms false).1 nms2 nus2 hm2 hro2
    have hena3 : (handleStepper (checkIrSensor (handleStepper s nms nus).1 nms
        false).1 nms2 nus2).1.stepperEnaPin = false := by
      rw [harm2.1, hma2]; rfl
    have hcf2 := checkIr_frame (handleStepper
      (checkIrSensor (handleStepper s nms nus).1 nms false).1 nms2 nus2).1 nms2 raw2
    show (checkIrSensor (handleStepper
        (checkIrSensor (handleStepper s nms nus).1 nms false).1 nms2 nus2).1
        nms2 raw2).1.stepperEnaPin = false
    rw [hcf2.2.1]
    exact hena3

/-- Witness for C6 at concrete inputs: from `exTriggerArmed` the edge
accepted at 100 ms leaves the enable line HIGH for that iteration and
the next iteration (at 200 ms) drives it LOW. -/
theorem C6_loop_order_witness :
    Out.line "B" ∈ (loopStep exTriggerArmed 100 0 false none).2 ∧
    (loopStep exTriggerArmed 100 0 false none).1.stepperEnaPin = true ∧
    (loopStep (loopStep exTriggerArmed 100 0 false none).1 200 600 false
        none).1.stepperEnaPin = false :=
  C6_loop_order exTriggerArmed 100 0 200 600 false (by decide) (by decide)
    (by decide) ⟨by decide, by decide, by decide⟩

/-- C10: a beam-cleared `"L:"` line is emitted only while `beamIsBroken`
holds (so an accepted Cleared transition with `beamIsBroken` false emits
no `"L:"` line); `beamIsBroken` becomes true only at a call that emits
the `"B"` marker; and along every run of sensor polls started with the
beam not marked broken, every prefix of the emitted trace carries at
least as many `"B"` lines as `"L:"` lines — every `"L:"` line is
preceded by a matching `"B"` line. -/
theorem C10_L_preceded_by_B :
    (∀ (s : ControllerState) (t : Nat) (raw : Bool) (o : Out),
      s.beamIsBroken = false → o ∈ (checkIrSensor s t raw).2 →
        isLLine o = false) ∧
    (∀ (s : ControllerState) (t : Nat) (raw : Bool),
      s.beamIsBroken = false → (checkIrSensor s t raw).1.beamIsBroken = true →
        Out.line "B" ∈ (checkIrSensor s t raw).2) ∧
    (∀ (s : ControllerState) (samples : List (Nat × Bool)) (j : Nat),
      s.beamIsBroken = false →
        (runSensor s (samples.take j)).2.countP isLLine
          ≤ (runSensor s (samples.take j)).2.countP isBLine) := by
  refine ⟨checkIr_noL, checkIr_B_on_break, ?_⟩
  intro s samples j h
  have hinv : brokenInv s := fun hb => absurd hb (by simp [h])
  have hc := (runSensor_count (samples.take j) s hinv).1
  have hb0 : brokenVal s = 0 := by simp [brokenVal, h]
  have hle : brokenVal (runSensor s (samples.take j)).1 ≤ 1 := by
    unfold brokenVal; split_ifs <;> omega
  omega

/-- Witness for C10 at concrete inputs: from `exAwaitBreak` (beam not
marked broken) the accepted break at 100 ms emits `"B"` and no `"L:"`
line, and the one-sample run carries no more `"L:"` than `"B"` lines. -/
theorem C10_L_preceded_by_B_witness :
    isLLine (Out.line "B") = false ∧
    Out.line "B" ∈ (checkIrSensor exAwaitBreak 100 false).2 ∧
    (runSensor exAwaitBreak ([(100, false)].take 1)).2.countP isLLine
      ≤ (runSensor exAwaitBreak ([(100, false)].take 1)).2.countP isBLine :=
  ⟨C10_L_preceded_by_B.1 exAwaitBreak 100 false (Out.line "B") (by decide) (by decide),
   C10_L_preceded_by_B.2.1 exAwaitBreak 100 false (by decide) (by decide),
   C10_L_preceded_by_B.2.2 exAwaitBreak [(100, false)] 1 (by decide)⟩

end WoodSort
